import Mathlib

/-!
Shallow embedding of the request/response orchestration layer of the
`ai-agent-toolkit` browser client, together with theorems settling the
frozen claims about its specification.

Embedded components (translated from the TypeScript source):

* `parseFileName`, `handleResponse`, `getRequest`, `postFormDataResponse`
  — the transport gateway (`src/unnamed/part_001`, api client).
* `downloadSteps` / `runDownload` — the download trigger
  (`src/frontend/src/utils/download.ts`).
* `lessonValidate` / `assessmentValidate` / `contentValidate`,
  `beginSubmit` / `applyOutcome` / `fullSubmit` — the three generation
  request controllers (`LessonPlanner.tsx`, `AssessmentCreator`,
  `ContentGenerator.tsx`).
* `handleUpload` — the configuration status tracker
  (`DataConfigurationPanel`).
* `fetchLocation` / `geoFailure` — the location resolver (`App`).

JavaScript strings are modelled as Lean `String`, exceptions as
`Except`, the wall-clock timestamp `Date.now()` as an explicit `now`
parameter, and asynchronous settlement as explicit application of the
settlement function to the state current at settlement time.
-/

instance {ε α : Type} [DecidableEq ε] [DecidableEq α] :
    DecidableEq (Except ε α) := fun x y =>
  match x, y with
  | .ok a, .ok b =>
    if h : a = b then isTrue (by rw [h])
    else isFalse (fun hh => by cases hh; exact h rfl)
  | .error a, .error b =>
    if h : a = b then isTrue (by rw [h])
    else isFalse (fun hh => by cases hh; exact h rfl)
  | .ok _, .error _ => isFalse (fun hh => by cases hh)
  | .error _, .ok _ => isFalse (fun hh => by cases hh)

/-- The double-quote character (written numerically to keep string
literals simple). -/
def dquote : Char := Char.ofNat 34

/-- Structural model of JS `String.prototype.trim` (whitespace removed
from both ends); written over the character list so that it reduces in
the kernel. -/
def jsTrim (s : String) : String :=
  String.mk
    (((s.toList.dropWhile Char.isWhitespace).reverse.dropWhile
        Char.isWhitespace).reverse)

/-- The single-quote character. -/
def squote : Char := Char.ofNat 39

/-- `headMatches p cs` holds when `p` is an initial segment of `cs`
(character-exact). Models JS `String.prototype.startsWith` at a
position. -/
def headMatches : List Char → List Char → Bool
  | [], _ => true
  | _ :: _, [] => false
  | p :: ps, c :: cs => p == c && headMatches ps cs

/-- `hasSub p cs` holds when `p` occurs contiguously somewhere in `cs`.
Models the (case-sensitive) JS `String.prototype.includes`. -/
def hasSub (p : List Char) : List Char → Bool
  | [] => headMatches p []
  | c :: cs => headMatches p (c :: cs) || hasSub p cs

/-- Substring containment on strings: `includesStr s pat` models
`s.includes(pat)`. -/
def includesStr (s pat : String) : Bool := hasSub pat.toList s.toList

/-- Case-insensitive initial-segment test, used for the `i` flag of the
filename regex. -/
def headMatchesCI : List Char → List Char → Bool
  | [], _ => true
  | _ :: _, [] => false
  | p :: ps, c :: cs => p.toLower == c.toLower && headMatchesCI ps cs

/-- The literal character run `filename` that the regex
`/filename\*?=([^;]+)/i` begins with. -/
def fnameChars : List Char := "filename".toList

/-- Attempt to match the regex `/filename\*?=([^;]+)/i` at the head of
`cs`, returning the capture group (the maximal run of non-`;`
characters after the `=`, which must be non-empty). -/
def matchFilenameAt (cs : List Char) : Option (List Char) :=
  if headMatchesCI fnameChars cs then
    match cs.drop fnameChars.length with
    | '*' :: '=' :: t =>
      let cap := t.takeWhile (fun c => c ≠ ';')
      if cap.isEmpty then none else some cap
    | '=' :: t =>
      let cap := t.takeWhile (fun c => c ≠ ';')
      if cap.isEmpty then none else some cap
    | _ => none
  else none

/-- Leftmost match of `/filename\*?=([^;]+)/i`: models
`regex.exec(contentDisposition)`, returning the first capture group. -/
def findFilenameMatch : List Char → Option (List Char)
  | [] => none
  | c :: cs =>
    match matchFilenameAt (c :: cs) with
    | some cap => some cap
    | none => findFilenameMatch cs

/-- Hexadecimal digit value, when the character is a hex digit. -/
def hexVal (c : Char) : Option Nat :=
  if '0' ≤ c ∧ c ≤ '9' then some (c.toNat - '0'.toNat)
  else if 'a' ≤ c ∧ c ≤ 'f' then some (c.toNat - 'a'.toNat + 10)
  else if 'A' ≤ c ∧ c ≤ 'F' then some (c.toNat - 'A'.toNat + 10)
  else none

/-- `true` exactly on UTF-8 continuation bytes `0x80–0xBF`. -/
def isCont (b : Nat) : Bool := 0x80 ≤ b && b ≤ 0xBF

/-- Payload bits of a continuation byte. -/
def contVal (b : Nat) : Nat := b - 0x80

/-- Strict UTF-8 decoder (WHATWG): rejects malformed sequences,
overlong encodings and surrogate code points. Models the decoding step
of `decodeURIComponent`, which throws `URIError` on invalid input. -/
def utf8Decode : List Nat → Option (List Char)
  | [] => some []
  | b :: bs =>
    if b < 0x80 then
      (utf8Decode bs).map (fun cs => Char.ofNat b :: cs)
    else if 0xC2 ≤ b ∧ b ≤ 0xDF then
      match bs with
      | b2 :: rest =>
        if isCont b2 then
          (utf8Decode rest).map
            (fun cs => Char.ofNat ((b - 0xC0) * 64 + contVal b2) :: cs)
        else none
      | _ => none
    else if 0xE0 ≤ b ∧ b ≤ 0xEF then
      match bs with
      | b2 :: b3 :: rest =>
        let lowOk :=
          if b = 0xE0 then 0xA0 ≤ b2 && b2 ≤ 0xBF
          else if b = 0xED then 0x80 ≤ b2 && b2 ≤ 0x9F
          else isCont b2
        if lowOk && isCont b3 then
          (utf8Decode rest).map
            (fun cs =>
              Char.ofNat ((b - 0xE0) * 4096 + contVal b2 * 64 + contVal b3)
                :: cs)
        else none
      | _ => none
    else if 0xF0 ≤ b ∧ b ≤ 0xF4 then
      match bs with
      | b2 :: b3 :: b4 :: rest =>
        let lowOk :=
          if b = 0xF0 then 0x90 ≤ b2 && b2 ≤ 0xBF
          else if b = 0xF4 then 0x80 ≤ b2 && b2 ≤ 0x8F
          else isCont b2
        if lowOk && isCont b3 && isCont b4 then
          (utf8Decode rest).map
            (fun cs =>
              Char.ofNat
                  ((b - 0xF0) * 262144 + contVal b2 * 4096 +
                    contVal b3 * 64 + contVal b4)
                :: cs)
        else none
      | _ => none
    else none

/-- Collect the maximal run of `%XX` escapes at the head of the input,
returning the decoded bytes and the remainder. Fails (like `URIError`)
when a `%` is not followed by two hex digits. -/
def percentRun : List Char → Option (List Nat × List Char)
  | '%' :: c1 :: c2 :: rest =>
    match hexVal c1, hexVal c2 with
    | some h1, some h2 =>
      match percentRun rest with
      | some (bs, r) => some ((h1 * 16 + h2) :: bs, r)
      | none => none
    | _, _ => none
  | '%' :: _ => none
  | cs => some ([], cs)

/-- Fuel-driven body of `decodeURIComponent`: each maximal run of
percent escapes is decoded as one UTF-8 byte sequence; other characters
pass through unchanged. `none` models a thrown `URIError`. -/
def decodeURILoop : Nat → List Char → Option (List Char)
  | 0, _ => none
  | _ + 1, [] => some []
  | fuel + 1, '%' :: rest =>
    match percentRun ('%' :: rest) with
    | some (bs, r) =>
      match utf8Decode bs with
      | some cs =>
        match decodeURILoop fuel r with
        | some tail => some (cs ++ tail)
        | none => none
      | none => none
    | none => none
  | fuel + 1, c :: rest =>
    match decodeURILoop fuel rest with
    | some tail => some (c :: tail)
    | none => none

/-- Model of the JS builtin `decodeURIComponent`; `none` models a
thrown `URIError`. -/
def decodeURIComponent (s : String) : Option String :=
  (decodeURILoop (s.length + 1) s.toList).map String.mk

/-- The extended-encoding marker `UTF-8''` tested by
`value.startsWith("UTF-8''")`. -/
def utf8Marker : List Char := "UTF-8".toList ++ [squote, squote]

/-- `value.replace(/["']/g, "")`: removes every double and single
quote, wherever it occurs. -/
def stripQuotes (cs : List Char) : List Char :=
  cs.filter (fun c => c ≠ dquote ∧ c ≠ squote)

/-- The synthesized fallback name `download-<Date.now()>`; the
wall-clock value is the explicit `now` parameter. -/
def fallbackName (now : Nat) : String := "download-" ++ toString now

/-- Embedding of `parseFileName` (api client, lines 29–42).
`Except.error ()` models an uncaught exception escaping the function
(the `decodeURIComponent` call is not guarded). -/
def parseFileName (now : Nat) (contentDisposition : Option String) :
    Except Unit String :=
  match contentDisposition with
  | none => .ok (fallbackName now)
  | some cd =>
    match findFilenameMatch cd.toList with
    | none => .ok (fallbackName now)
    | some cap =>
      let value := jsTrim (String.mk cap)
      if headMatches utf8Marker value.toList then
        match decodeURIComponent (String.mk (value.toList.drop 7)) with
        | some decoded => .ok decoded
        | none => .error ()
      else .ok (String.mk (stripQuotes value.toList))

/-- The error class `ApiError` (api client, lines 20–27): a message and
the HTTP status the constructor was given. -/
structure ApiError where
  message : String
  status : Nat
  deriving Repr, DecidableEq

/-- An exception escaping a gateway entry point: either the `ApiError`
the code throws deliberately, or a host exception (`SyntaxError` from
`response.json()`, `URIError` from `decodeURIComponent`) carrying the
host-chosen message. -/
inductive GatewayError where
  | api (e : ApiError)
  | host (message : String)
  deriving Repr, DecidableEq

/-- Model of the parts of a settled `fetch` `Response` that the gateway
reads. `jsonData` is `some d` exactly when `response.json()` succeeds,
in which case `jsonErrorField` is the body's `error` field (when it is
a string). `bodyText` is the raw text body; `blobType` is the type the
host gives `response.blob()`. -/
structure TResponse (T : Type) where
  ok : Bool
  status : Nat
  statusText : String
  jsonData : Option T
  jsonErrorField : Option String
  bodyText : String
  contentType : Option String
  contentDisposition : Option String
  blobType : String
  blobBytes : List Nat
  deriving Repr, DecidableEq

/-- The blob carried by a file-shaped gateway result. -/
structure Blob where
  bytes : List Nat
  type : String
  deriving Repr, DecidableEq

/-- The tagged union `ApiResponse<T> = JsonResponse<T> | FileResponse`
(api client, lines 4–18). -/
inductive ApiResult (T : Type) where
  | json (data : T)
  | file (blob : Blob) (fileName : String) (mimeType : String)
  deriving Repr, DecidableEq

/-- The message computed by the failure branch of `handleResponse`
(api client, lines 45–58): start from `statusText`; if the body parses
as JSON and carries a truthy `error` field, use it; if the body is not
JSON, fall back to the raw text when non-empty; guard the final
`message || "API request failed"`. -/
def failMessage {T : Type} (r : TResponse T) : String :=
  let message :=
    match r.jsonData with
    | some _ =>
      match r.jsonErrorField with
      | some e => if e = "" then r.statusText else e
      | none => r.statusText
    | none => if r.bodyText = "" then r.statusText else r.bodyText
  if message = "" then "API request failed" else message

/-- Embedding of `handleResponse` (api client, lines 44–71), the shared
response handler behind `postJson`. `Except.error` models a thrown
exception. The `now` parameter stands for `Date.now()` inside
`parseFileName`. -/
def handleResponse {T : Type} (now : Nat) (r : TResponse T) :
    Except GatewayError (ApiResult T) :=
  if r.ok = false then
    .error (.api ⟨failMessage r, r.status⟩)
  else
    let contentType := r.contentType.getD ""
    if includesStr contentType "application/json" then
      match r.jsonData with
      | some d => .ok (.json d)
      | none => .error (.host "Unexpected end of JSON input")
    else
      let mimeType :=
        if r.blobType ≠ "" then r.blobType
        else if contentType ≠ "" then contentType
        else "application/octet-stream"
      match parseFileName now r.contentDisposition with
      | .ok fileName =>
        .ok (.file ⟨r.blobBytes, r.blobType⟩ fileName mimeType)
      | .error _ => .error (.host "URI malformed")

/-- Embedding of the `get` entry point (api client, lines 73–79): on a
non-success status it throws `ApiError(response.statusText, status)`
without reading the body; on success it returns the decoded JSON. -/
def getRequest {T : Type} (r : TResponse T) : Except GatewayError T :=
  if r.ok = false then
    .error (.api ⟨r.statusText, r.status⟩)
  else
    match r.jsonData with
    | some d => .ok d
    | none => .error (.host "Unexpected end of JSON input")

/-- Embedding of the `postFormData` entry point (api client, lines
98–113): on a non-success status it throws
`ApiError(await response.text() || "Upload failed", status)`; on
success it returns the decoded JSON. -/
def postFormDataResponse {T : Type} (r : TResponse T) :
    Except GatewayError T :=
  if r.ok = false then
    .error (.api ⟨if r.bodyText = "" then "Upload failed" else r.bodyText,
      r.status⟩)
  else
    match r.jsonData with
    | some d => .ok d
    | none => .error (.host "Unexpected end of JSON input")

/-- The successive side-effecting statements of the file branch of
`downloadFromApi` (download.ts, lines 10–17), in source order. -/
inductive DlStep where
  | createURL
  | appendChild
  | click
  | removeChild
  | revokeURL
  deriving Repr, DecidableEq

/-- The body of the file branch of `downloadFromApi` as a statement
sequence. -/
def downloadSteps : List DlStep :=
  [.createURL, .appendChild, .click, .removeChild, .revokeURL]

/-- Observable resource state of the download trigger: whether an
object URL is currently allocated, whether it has been revoked, and
whether the anchor element is attached to the document. -/
structure DlState where
  allocated : Bool
  revoked : Bool
  attached : Bool
  deriving Repr, DecidableEq

/-- Initial resource state, before `downloadFromApi` runs. -/
def dlInit : DlState := ⟨false, false, false⟩

/-- Effect of one statement. The host fault `clickThrows` models
`link.click()` raising an exception; every other statement succeeds.
`Except.error` models the exception propagating. -/
def execDlStep (clickThrows : Bool) (st : DlState) :
    DlStep → Except Unit DlState
  | .createURL => .ok { st with allocated := true }
  | .appendChild => .ok { st with attached := true }
  | .click => if clickThrows then .error () else .ok st
  | .removeChild => .ok { st with attached := false }
  | .revokeURL => .ok { st with revoked := true }

/-- Run a statement sequence; the function body has no `try`/`finally`,
so the first exception aborts the remaining statements. Returns the
resource state at exit and whether an exception escaped. -/
def runDlSteps (clickThrows : Bool) :
    List DlStep → DlState → DlState × Bool
  | [], st => (st, false)
  | s :: rest, st =>
    match execDlStep clickThrows st s with
    | .ok st2 => runDlSteps clickThrows rest st2
    | .error _ => (st, true)

/-- Embedding of `downloadFromApi` (download.ts, lines 3–18): the JSON
variant returns the data and performs no step; the file variant runs
the statement sequence. -/
def runDownload {T : Type} (clickThrows : Bool) (r : ApiResult T) :
    DlState × Bool :=
  match r with
  | .json _ => (dlInit, false)
  | .file _ _ _ => runDlSteps clickThrows downloadSteps dlInit

/-- The `"json" | "docx" | "pdf"` output-format toggle shared by the
three generation sections. -/
inductive FormatOption where
  | json
  | docx
  | pdf
  deriving Repr, DecidableEq

/-- The raw-view toggle `"preview" | "json"` of a rendered result. -/
inductive ViewMode where
  | preview
  | rawJson
  deriving Repr, DecidableEq

/-- Settled per-controller React state: the pieces of
`useState` that `handleSubmit` reads or writes. -/
structure ControllerState (T : Type) where
  result : Option T
  lastDownload : Option String
  error : Option String
  viewMode : ViewMode
  loading : Bool
  deriving Repr, DecidableEq

/-- The message attached to a caught exception:
`e instanceof Error ? e.message : fallback`. Both modelled error shapes
are `Error` instances, so the message is always taken from them. -/
def gatewayMessage : GatewayError → String
  | .api e => e.message
  | .host m => m

/-- Outcome of the validation phase of a `handleSubmit`: either an
early `setError(...); return` before any network activity, or the
payload handed to `postJson`. -/
inductive SubmitPhase (P : Type) where
  | localError (message : String)
  | callGateway (payload : P)
  deriving Repr, DecidableEq

/-- Form state of `LessonPlanner` (LessonPlanner.tsx, lines 47–55). -/
structure LessonForm where
  topic : String
  courseName : String
  state : String
  startDate : String
  language : String
  format : FormatOption
  selectedDocs : List String
  deriving Repr, DecidableEq

/-- The request payload assembled by `LessonPlanner.handleSubmit`
(lines 90–98). -/
structure LessonPayload where
  query : String
  course_name : String
  state : String
  start_date : String
  language : String
  output_format : FormatOption
  selected_documents : List String
  deriving Repr, DecidableEq

/-- Validation phase of `LessonPlanner.handleSubmit` (lines 78–98):
blank topic, then empty document selection, each failing locally before
`postJson` is reached. -/
def lessonValidate (f : LessonForm) : SubmitPhase LessonPayload :=
  if jsTrim f.topic = "" then
    .localError "Please describe the lesson plan focus area."
  else if f.selectedDocs.length = 0 then
    .localError "Select at least one document to ground the lesson plan."
  else
    .callGateway ⟨jsTrim f.topic, jsTrim f.courseName, f.state, f.startDate,
      f.language, f.format, f.selectedDocs⟩

/-- Form state of `AssessmentCreator` (MarkdownRenderer.tsx file,
lines 93–98). -/
structure AssessmentForm where
  topic : String
  language : String
  format : FormatOption
  selectedDocs : List String
  deriving Repr, DecidableEq

/-- The request payload assembled by `AssessmentCreator.handleSubmit`
(lines 122–127). -/
structure AssessmentPayload where
  query : String
  language : String
  output_format : FormatOption
  selected_documents : List String
  deriving Repr, DecidableEq

/-- Validation phase of `AssessmentCreator.handleSubmit` (lines
115–127): only the empty document selection fails locally. -/
def assessmentValidate (f : AssessmentForm) :
    SubmitPhase AssessmentPayload :=
  if f.selectedDocs.length = 0 then
    .localError "Please choose at least one knowledge base document."
  else
    .callGateway ⟨jsTrim f.topic, f.language, f.format, f.selectedDocs⟩

/-- Form state of `ContentGenerator` (ContentGenerator.tsx, lines
46–56). -/
structure ContentForm where
  topic : String
  contentType : String
  tone : String
  audience : String
  length : String
  includePractice : Bool
  language : String
  format : FormatOption
  selectedDocs : List String
  deriving Repr, DecidableEq

/-- The request payload assembled by `ContentGenerator.handleSubmit`
(lines 85–95). -/
structure ContentPayload where
  query : String
  content_type : String
  audience : String
  tone : String
  length : String
  include_practice : Bool
  language : String
  output_format : FormatOption
  selected_documents : List String
  deriving Repr, DecidableEq

/-- Validation phase of `ContentGenerator.handleSubmit` (lines 73–95):
blank topic, then empty document selection. -/
def contentValidate (f : ContentForm) : SubmitPhase ContentPayload :=
  if jsTrim f.topic = "" then
    .localError "Please describe the content you need."
  else if f.selectedDocs.length = 0 then
    .localError
      "Select at least one knowledge base document to ground the content."
  else
    .callGateway ⟨jsTrim f.topic, f.contentType,
      (if jsTrim f.audience = "" then "Front Desk Associate trainees"
        else jsTrim f.audience),
      f.tone, f.length, f.includePractice, f.language, f.format,
      f.selectedDocs⟩

/-- Effect of issuing a submission, common to the three controllers:
the prelude `setError(null); setLastDownload(null);
setViewMode("preview")`, then either the local validation error
(returning before any network call) or `setLoading(true)` with the
request now in flight. -/
def beginSubmit {P T : Type} (v : SubmitPhase P) (s : ControllerState T) :
    ControllerState T :=
  let s1 : ControllerState T :=
    { s with error := none, lastDownload := none, viewMode := .preview }
  match v with
  | .localError m => { s1 with error := some m }
  | .callGateway _ => { s1 with loading := true }

/-- Effect of a submission settling, common to the three controllers
(the `try`/`catch`/`finally` after `postJson`): a JSON result is
rendered; a file result records the download notice and clears the
rendered result; a thrown error records its message. `setLoading(false)`
runs in every case (`finally`). -/
def applyOutcome {T : Type} (gw : Except GatewayError (ApiResult T))
    (s : ControllerState T) : ControllerState T :=
  match gw with
  | .ok (.json d) => { s with result := some d, loading := false }
  | .ok (.file _ name _) =>
    { s with lastDownload := some name, result := none, loading := false }
  | .error e => { s with error := some (gatewayMessage e), loading := false }

/-- A whole `handleSubmit` run in which the submission settles with the
controller state unchanged in between: validation, then — only when
validation passed — application of the gateway outcome. -/
def fullSubmit {P T : Type} (v : SubmitPhase P)
    (gw : Except GatewayError (ApiResult T)) (s : ControllerState T) :
    ControllerState T :=
  match v with
  | .localError _ => beginSubmit v s
  | .callGateway _ => applyOutcome gw (beginSubmit v s)

/-- `LessonPlanner.handleSubmit` with the gateway outcome supplied by
the environment. -/
def lessonSubmit {T : Type} (f : LessonForm)
    (gw : Except GatewayError (ApiResult T)) (s : ControllerState T) :
    ControllerState T :=
  fullSubmit (lessonValidate f) gw s

/-- `AssessmentCreator.handleSubmit` with the gateway outcome supplied
by the environment. -/
def assessmentSubmit {T : Type} (f : AssessmentForm)
    (gw : Except GatewayError (ApiResult T)) (s : ControllerState T) :
    ControllerState T :=
  fullSubmit (assessmentValidate f) gw s

/-- `ContentGenerator.handleSubmit` with the gateway outcome supplied
by the environment. -/
def contentSubmit {T : Type} (f : ContentForm)
    (gw : Except GatewayError (ApiResult T)) (s : ControllerState T) :
    ControllerState T :=
  fullSubmit (contentValidate f) gw s

/-- The three upload resource types (`DataConfigurationPanel`). -/
inductive UploadType where
  | courses
  | holidays
  | guidelines
  deriving Repr, DecidableEq

/-- The shared readiness state held by `App` (`dataStatus`): three
readiness booleans plus a document count. -/
structure DataStatus where
  courses : Bool
  holidays : Bool
  guidelines : Bool
  documentCount : Nat
  deriving Repr, DecidableEq

/-- Readiness flag of one resource type. -/
def getReady (ty : UploadType) (st : DataStatus) : Bool :=
  match ty with
  | .courses => st.courses
  | .holidays => st.holidays
  | .guidelines => st.guidelines

/-- `onStatusChange({ [type]: true })` merged by `App`'s
`handleStatusChange` spread: sets exactly the one flag. -/
def setReady (ty : UploadType) (st : DataStatus) : DataStatus :=
  match ty with
  | .courses => { st with courses := true }
  | .holidays => { st with holidays := true }
  | .guidelines => { st with guidelines := true }

/-- Local state of `DataConfigurationPanel`: per-type in-flight flags
and the shared success/error banners. -/
structure PanelState where
  upCourses : Bool
  upHolidays : Bool
  upGuidelines : Bool
  message : Option String
  error : Option String
  deriving Repr, DecidableEq

/-- Set one in-flight flag (the `setUploading` functional updates). -/
def setUploading (ty : UploadType) (b : Bool) (ps : PanelState) :
    PanelState :=
  match ty with
  | .courses => { ps with upCourses := b }
  | .holidays => { ps with upHolidays := b }
  | .guidelines => { ps with upGuidelines := b }

/-- Embedding of `DataConfigurationPanel.handleUpload` (StatusPill.tsx
file, lines 231–255), from initiation through settlement. The outcome
carries the rendered success banner on success and the caught error
message on failure. Only the success branch calls `onStatusChange`. -/
def handleUpload (ty : UploadType) (outcome : Except String String)
    (ps : PanelState) (st : DataStatus) : PanelState × DataStatus :=
  let ps1 : PanelState :=
    { setUploading ty true ps with message := none, error := none }
  match outcome with
  | .ok m => ({ setUploading ty false ps1 with message := some m },
      setReady ty st)
  | .error e => ({ setUploading ty false ps1 with error := some e }, st)

/-- The `location` object of a `/detect_location` response
(`LocationData` in types). -/
structure LocationInfo where
  city : Option String
  regionState : Option String
  country : Option String
  detected : Option Bool
  deriving Repr, DecidableEq

/-- The `/detect_location` response body (`LocationData`). -/
structure LocationData where
  location : LocationInfo
  suggested_language : String
  deriving Repr, DecidableEq

/-- Provenance of the current location suggestion
(`locationSource` in `App`). -/
inductive LocSource where
  | unknown
  | ip
  | browser
  deriving Repr, DecidableEq

/-- The slice of `App` state owned by the location resolver. -/
structure AppLocState where
  location : Option LocationData
  locationSource : LocSource
  geolocationDenied : Bool
  deriving Repr, DecidableEq

/-- A pair of coordinates handed to `fetchLocation`. -/
structure Coords where
  lat : Int
  lon : Int
  deriving Repr, DecidableEq

/-- Embedding of `App.fetchLocation` (App file, lines 199–226) from
call through settlement: on a JSON response the suggestion and
provenance are stored (and, for a coordinate-based call, the denial
flag cleared); a non-JSON success changes nothing; a thrown error sets
the denial flag for a coordinate-based call and degrades provenance to
`unknown` otherwise. -/
def fetchLocation (coords : Option Coords)
    (outcome : Except GatewayError (ApiResult LocationData))
    (s : AppLocState) : AppLocState :=
  match outcome with
  | .ok (.json data) =>
    { s with
      location := some data,
      locationSource := if coords.isSome then .browser else .ip,
      geolocationDenied :=
        if coords.isSome then false else s.geolocationDenied }
  | .ok (.file _ _ _) => s
  | .error _ =>
    if coords.isSome then { s with geolocationDenied := true }
    else { s with locationSource := .unknown }

/-- Embedding of the geolocation error callback (App file, lines
282–286): only a permission-denied failure sets the flag; no other
state is touched. -/
def geoFailure (permissionDenied : Bool) (s : AppLocState) :
    AppLocState :=
  if permissionDenied then { s with geolocationDenied := true } else s

/-- The `AssessmentResult` payload shape (types file): rendered English
text, optional translation, language, source list. -/
structure AssessmentResult where
  english_answer : String
  translated_answer : Option String
  language : String
  sources : List String
  deriving Repr, DecidableEq

/-- Restatement, from the claim's words, of the failure-message
priority asserted for the shared JSON-POST failure path: a JSON body's
non-empty `error` field first, then a non-empty raw text body (only
when the body is not JSON), then the protocol status text, with the
code's final fallback when everything is empty. Compared against the
source-derived `failMessage` below. -/
def claimedPostMessage {T : Type} (r : TResponse T) : String :=
  if r.jsonData.isSome then
    match r.jsonErrorField with
    | some e =>
      if e ≠ "" then e
      else if r.statusText = "" then "API request failed" else r.statusText
    | none => if r.statusText = "" then "API request failed" else r.statusText
  else if r.bodyText ≠ "" then r.bodyText
  else if r.statusText = "" then "API request failed" else r.statusText

/-- One upload settling, projected to the shared readiness state (the
panel-local state is irrelevant to readiness, so a fixed idle panel is
supplied). -/
def uploadStatusStep (st : DataStatus)
    (ev : UploadType × Except String String) : DataStatus :=
  (handleUpload ev.1 ev.2 ⟨false, false, false, none, none⟩ st).2

/-- The raw `content-disposition` value `attachment; filename="plan.pdf"`. -/
def c1RawHeader : String :=
  "attachment; filename=" ++ String.mk [dquote] ++ "plan.pdf" ++
    String.mk [dquote]

/-- A successful PDF response carrying `c1RawHeader`. -/
def c1Resp : TResponse Nat :=
  ⟨true, 200, "OK", none, none, "", some "application/pdf", some c1RawHeader,
    "application/pdf", [1, 2, 3]⟩

/-- A 404 response whose JSON body carries `error: "missing"`. -/
def c5Resp : TResponse Unit :=
  ⟨false, 404, "Not Found", some (), some "missing", "json error body",
    some "application/json", none, "", []⟩

/-- A 500 response with a plain-text body. -/
def c5WResp : TResponse Unit :=
  ⟨false, 500, "Server Error", none, none, "boom", none, none, "", []⟩

/-- The header `attachment; filename*=UTF-8''%ZZ`, whose percent escape
is malformed. -/
def c6Header : String :=
  "attachment; filename*=UTF-8" ++ String.mk [squote, squote] ++ "%ZZ"

/-- The header `attachment; filename=""`, whose token is only quotes. -/
def c10Header : String := "attachment; filename=" ++ String.mk [dquote, dquote]

/-- The header `attachment; filename="a'b.pdf"`, with an interior
single quote. -/
def c10InnerHeader : String :=
  "attachment; filename=" ++ String.mk [dquote] ++ "a" ++ String.mk [squote] ++
    "b.pdf" ++ String.mk [dquote]

/-- A valid assessment form (non-empty document selection). -/
def c2Form : AssessmentForm :=
  ⟨"Create a quiz about greeting guests at a hotel.", "English", .json,
    ["guide.pdf"]⟩

/-- Payload of the earlier-issued submission. -/
def c2First : AssessmentResult := ⟨"first answer", none, "English", []⟩

/-- Payload of the later-issued submission. -/
def c2Second : AssessmentResult := ⟨"second answer", none, "English", []⟩

/-- Idle assessment-controller state. -/
def c2Start : ControllerState AssessmentResult :=
  ⟨none, none, none, .preview, false⟩

/-- A lesson form with no selected documents. -/
def c3LessonForm : LessonForm :=
  ⟨"Topic", "", "Corporate", "", "English", .json, []⟩

/-- An assessment form with no selected documents. -/
def c3AssessForm : AssessmentForm := ⟨"Quiz", "English", .pdf, []⟩

/-- A content form with no selected documents. -/
def c3ContentForm : ContentForm :=
  ⟨"Handout", "Lesson Plan", "Friendly", "Trainees", "Medium", true, "English",
    .docx, []⟩

/-- A controller state holding output of an earlier submission. -/
def c3State : ControllerState Nat :=
  ⟨some 9, some "old.pdf", none, .rawJson, false⟩

/-- One possible gateway outcome. -/
def c3Gw1 : Except GatewayError (ApiResult Nat) := .ok (.json 5)

/-- A different gateway outcome. -/
def c3Gw2 : Except GatewayError (ApiResult Nat) := .error (.host "net down")

/-- A valid assessment form for the C4 scenario. -/
def c4Form : AssessmentForm := ⟨"Quiz", "English", .json, ["guide.pdf"]⟩

/-- A previously rendered assessment result. -/
def c4Prev : AssessmentResult :=
  ⟨"previous answer", none, "English", ["guide.pdf"]⟩

/-- Controller state still holding `c4Prev`. -/
def c4Start : ControllerState AssessmentResult :=
  ⟨some c4Prev, none, none, .preview, false⟩

/-- Idle panel state. -/
def c7Panel : PanelState := ⟨false, false, false, none, none⟩

/-- Readiness state before any upload (four documents indexed). -/
def c7Start : DataStatus := ⟨false, false, false, 4⟩

/-- Readiness state after a successful course-data upload. -/
def c7AfterCourses : DataStatus := ⟨true, false, false, 4⟩

/-- The detect-location response for the Maharashtra scenario. -/
def mahData : LocationData :=
  ⟨⟨some "Mumbai", some "Maharashtra", some "India", some true⟩, "Marathi"⟩

/-- Location state at startup. -/
def locStart : AppLocState := ⟨none, .unknown, false⟩

/-- The failure message computed by `handleResponse` agrees with the
priority restated from the claim in `claimedPostMessage`. -/
theorem failMessage_eq_claimed {T : Type} (r : TResponse T) :
    failMessage r = claimedPostMessage r := by
  unfold failMessage claimedPostMessage
  cases r.jsonData with
  | some d =>
    cases r.jsonErrorField with
    | some e => by_cases he : e = "" <;> simp [he]
    | none => simp
  | none => by_cases hb : r.bodyText = "" <;> simp [hb]

/-- When the submission settles with a thrown error, every controller
(all are instances of `fullSubmit`) ends with an error message, an
unchanged rendered result, and a cleared download notice. -/
theorem fullSubmit_error_case {P T : Type} (v : SubmitPhase P)
    (e : GatewayError) (s : ControllerState T) :
    (∃ m, (fullSubmit v (.error e) s).error = some m) ∧
    (fullSubmit v (.error e) s).result = s.result ∧
    (fullSubmit v (.error e) s).lastDownload = none := by
  cases v with
  | localError m => exact ⟨⟨m, rfl⟩, rfl, rfl⟩
  | callGateway p => exact ⟨⟨gatewayMessage e, rfl⟩, rfl, rfl⟩

/-- A set readiness flag survives any single later upload settlement. -/
theorem uploadStatusStep_mono (st : DataStatus)
    (ev : UploadType × Except String String) (t : UploadType)
    (h : getReady t st = true) : getReady t (uploadStatusStep st ev) = true := by
  obtain ⟨ty, out⟩ := ev
  cases out with
  | ok m =>
    cases ty <;> cases t <;>
      simp_all [uploadStatusStep, handleUpload, setReady, getReady]
  | error e => simpa [uploadStatusStep, handleUpload] using h

/-- C1, counterexample: on a successful `application/pdf` response
whose `content-disposition` is `attachment; filename="plan.pdf"`, the
artifact's filename field is the resolved `plan.pdf`, not the raw
header value (nor the raw quoted parameter value) as the claim
states. -/
theorem C1_counterexample :
    handleResponse 0 c1Resp =
      .ok (.file ⟨[1, 2, 3], "application/pdf"⟩ "plan.pdf"
        "application/pdf") ∧
    ("plan.pdf" : String) ≠ c1RawHeader ∧
    ("plan.pdf" : String) ≠
      String.mk [dquote] ++ "plan.pdf" ++ String.mk [dquote] := by
  refine ⟨by decide, by decide, by decide⟩

/-- C1, amended: for every successful response the gateway returns, the
value is the JSON variant iff the declared content type contains
`application/json`; otherwise it is the file variant carrying the body
bytes, a MIME type, and the filename resolved from the
`content-disposition` header by `parseFileName` (not the raw header
value). The tag depends only on the response — `handleResponse` takes
no request-side argument at all. -/
theorem C1_theorem {T : Type} (now : Nat) (r : TResponse T) (v : ApiResult T)
    (hok : r.ok = true) (h : handleResponse now r = .ok v) :
    ((∃ d, v = ApiResult.json d) ↔
      includesStr (r.contentType.getD "") "application/json" = true) ∧
    (includesStr (r.contentType.getD "") "application/json" = false →
      ∃ name mt, parseFileName now r.contentDisposition = .ok name ∧
        v = .file ⟨r.blobBytes, r.blobType⟩ name mt) := by
  unfold handleResponse at h
  rw [hok] at h
  rw [if_neg (by simp)] at h
  cases hct : includesStr (r.contentType.getD "") "application/json" with
  | true =>
    simp only [hct, if_true] at h
    cases hj : r.jsonData with
    | some d =>
      rw [hj] at h
      simp only [Except.ok.injEq] at h
      subst h
      exact ⟨⟨fun _ => rfl, fun _ => ⟨d, rfl⟩⟩, fun hf => by simp at hf⟩
    | none => rw [hj] at h; cases h
  | false =>
    simp only [hct, Bool.false_eq_true, if_false] at h
    cases hp : parseFileName now r.contentDisposition with
    | ok name =>
      rw [hp] at h
      simp only [Except.ok.injEq] at h
      subst h
      constructor
      · constructor
        · rintro ⟨d, hd⟩; cases hd
        · intro hc; exact (Bool.false_ne_true hc).elim
      · intro _; exact ⟨name, _, rfl, rfl⟩
    | error e => rw [hp] at h; cases h

/-- C1, witness: the amended theorem applied to the concrete PDF
response `c1Resp`. -/
theorem C1_witness :
    c1Resp.ok = true ∧
    handleResponse 0 c1Resp =
      .ok (.file ⟨[1, 2, 3], "application/pdf"⟩ "plan.pdf"
        "application/pdf") ∧
    (((∃ d, (ApiResult.file (T := Nat) ⟨[1, 2, 3], "application/pdf"⟩
          "plan.pdf" "application/pdf") = ApiResult.json d) ↔
        includesStr ((c1Resp.contentType).getD "") "application/json" = true) ∧
      (includesStr ((c1Resp.contentType).getD "") "application/json" = false →
        ∃ name mt, parseFileName 0 c1Resp.contentDisposition = .ok name ∧
          (ApiResult.file (T := Nat) ⟨[1, 2, 3], "application/pdf"⟩
            "plan.pdf" "application/pdf") =
            .file ⟨c1Resp.blobBytes, c1Resp.blobType⟩ name mt)) :=
  ⟨rfl, by decide, C1_theorem 0 c1Resp _ rfl (by decide)⟩

/-- C2, counterexample: two submissions from the assessment controller,
issued in order and settling in reverse order, leave the rendered
result equal to the FIRST submission's payload, not the second's as the
claim states. -/
theorem C2_counterexample :
    (applyOutcome (.ok (.json c2First))
        (applyOutcome (.ok (.json c2Second))
          (beginSubmit (assessmentValidate c2Form)
            (beginSubmit (assessmentValidate c2Form) c2Start)))).result =
      some c2First ∧
    c2First ≠ c2Second := ⟨by decide, by decide⟩

/-- C2, amended: with no sequence tagging in the controllers, the final
settled state reflects whichever submission's response settles LAST
(here the earlier-issued one, `d1`), so a stale response overwrites a
newer one. -/
theorem C2_theorem {P T : Type} (p1 p2 : P) (d1 d2 : T)
    (s : ControllerState T) :
    (applyOutcome (.ok (.json d1))
        (applyOutcome (.ok (.json d2))
          (beginSubmit (SubmitPhase.callGateway p2)
            (beginSubmit (SubmitPhase.callGateway p1) s)))).result =
      some d1 := by
  simp [beginSubmit, applyOutcome]

/-- C3: for each of the three controllers, a form with an empty
document selection fails with a local validation error, and the settled
state is independent of the gateway outcome — the transport gateway is
never consulted for that submission. -/
theorem C3_theorem :
    (∀ (T : Type) (f : LessonForm) (gw gw2 : Except GatewayError (ApiResult T))
      (s : ControllerState T), f.selectedDocs = [] →
      (∃ m, (lessonSubmit f gw s).error = some m) ∧
      lessonSubmit f gw s = lessonSubmit f gw2 s) ∧
    (∀ (T : Type) (f : AssessmentForm)
      (gw gw2 : Except GatewayError (ApiResult T)) (s : ControllerState T),
      f.selectedDocs = [] →
      (∃ m, (assessmentSubmit f gw s).error = some m) ∧
      assessmentSubmit f gw s = assessmentSubmit f gw2 s) ∧
    (∀ (T : Type) (f : ContentForm)
      (gw gw2 : Except GatewayError (ApiResult T)) (s : ControllerState T),
      f.selectedDocs = [] →
      (∃ m, (contentSubmit f gw s).error = some m) ∧
      contentSubmit f gw s = contentSubmit f gw2 s) := by
  refine ⟨?_, ?_, ?_⟩
  · intro T f gw gw2 s hdocs
    have hlen : f.selectedDocs.length = 0 := by rw [hdocs]; rfl
    have hv : ∃ m, lessonValidate f = .localError m := by
      by_cases ht : jsTrim f.topic = ""
      · exact ⟨"Please describe the lesson plan focus area.",
          by simp [lessonValidate, ht]⟩
      · exact ⟨"Select at least one document to ground the lesson plan.",
          by simp [lessonValidate, ht, hlen]⟩
    obtain ⟨m, hm⟩ := hv
    unfold lessonSubmit fullSubmit
    rw [hm]
    exact ⟨⟨m, rfl⟩, rfl⟩
  · intro T f gw gw2 s hdocs
    have hlen : f.selectedDocs.length = 0 := by rw [hdocs]; rfl
    have hv : ∃ m, assessmentValidate f = .localError m :=
      ⟨"Please choose at least one knowledge base document.",
        by simp [assessmentValidate, hlen]⟩
    obtain ⟨m, hm⟩ := hv
    unfold assessmentSubmit fullSubmit
    rw [hm]
    exact ⟨⟨m, rfl⟩, rfl⟩
  · intro T f gw gw2 s hdocs
    have hlen : f.selectedDocs.length = 0 := by rw [hdocs]; rfl
    have hv : ∃ m, contentValidate f = .localError m := by
      by_cases ht : jsTrim f.topic = ""
      · exact ⟨"Please describe the content you need.",
          by simp [contentValidate, ht]⟩
      · exact
          ⟨"Select at least one knowledge base document to ground the content.",
            by simp [contentValidate, ht, hlen]⟩
    obtain ⟨m, hm⟩ := hv
    unfold contentSubmit fullSubmit
    rw [hm]
    exact ⟨⟨m, rfl⟩, rfl⟩

/-- C3, witness: the three parts of the theorem applied to concrete
empty-selection forms and two distinct gateway outcomes. -/
theorem C3_witness :
    (c3LessonForm.selectedDocs = [] ∧
      (∃ m, (lessonSubmit c3LessonForm c3Gw1 c3State).error = some m) ∧
      lessonSubmit c3LessonForm c3Gw1 c3State =
        lessonSubmit c3LessonForm c3Gw2 c3State) ∧
    (c3AssessForm.selectedDocs = [] ∧
      (∃ m, (assessmentSubmit c3AssessForm c3Gw1 c3State).error = some m) ∧
      assessmentSubmit c3AssessForm c3Gw1 c3State =
        assessmentSubmit c3AssessForm c3Gw2 c3State) ∧
    (c3ContentForm.selectedDocs = [] ∧
      (∃ m, (contentSubmit c3ContentForm c3Gw1 c3State).error = some m) ∧
      contentSubmit c3ContentForm c3Gw1 c3State =
        contentSubmit c3ContentForm c3Gw2 c3State) :=
  ⟨⟨rfl, C3_theorem.1 Nat c3LessonForm c3Gw1 c3Gw2 c3State rfl⟩,
    ⟨rfl, C3_theorem.2.1 Nat c3AssessForm c3Gw1 c3Gw2 c3State rfl⟩,
    ⟨rfl, C3_theorem.2.2 Nat c3ContentForm c3Gw1 c3Gw2 c3State rfl⟩⟩

/-- C4, counterexample: a remote failure after a previous successful
render leaves the previously rendered result in place alongside the new
error message, contradicting the claim that it is cleared. -/
theorem C4_counterexample :
    (assessmentSubmit c4Form (.error (.api ⟨"boom", 500⟩)) c4Start).error =
      some "boom" ∧
    (assessmentSubmit c4Form (.error (.api ⟨"boom", 500⟩)) c4Start).result =
      some c4Prev ∧
    some c4Prev ≠ (none : Option AssessmentResult) :=
  ⟨by decide, by decide, by decide⟩

/-- C4, amended: whenever a submission fails (locally in validation or
remotely), each controller ends holding a user-facing error message and
a cleared download notice, but a structured result retained from a
previous successful submission is NOT cleared — it remains in the
state. -/
theorem C4_theorem :
    (∀ (T : Type) (f : LessonForm) (e : GatewayError) (s : ControllerState T),
      (∃ m, (lessonSubmit f (.error e) s).error = some m) ∧
      (lessonSubmit f (.error e) s).result = s.result ∧
      (lessonSubmit f (.error e) s).lastDownload = none) ∧
    (∀ (T : Type) (f : AssessmentForm) (e : GatewayError)
      (s : ControllerState T),
      (∃ m, (assessmentSubmit f (.error e) s).error = some m) ∧
      (assessmentSubmit f (.error e) s).result = s.result ∧
      (assessmentSubmit f (.error e) s).lastDownload = none) ∧
    (∀ (T : Type) (f : ContentForm) (e : GatewayError) (s : ControllerState T),
      (∃ m, (contentSubmit f (.error e) s).error = some m) ∧
      (contentSubmit f (.error e) s).result = s.result ∧
      (contentSubmit f (.error e) s).lastDownload = none) :=
  ⟨fun _ f e s => fullSubmit_error_case (lessonValidate f) e s,
    fun _ f e s => fullSubmit_error_case (assessmentValidate f) e s,
    fun _ f e s => fullSubmit_error_case (contentValidate f) e s⟩

/-- C5, counterexample: for the same failed response — 404, JSON body
with `error: "missing"` — the `get` entry point reports the status text
and the form-data entry point reports the raw body text; neither
honours the claimed JSON-error-field priority. -/
theorem C5_counterexample :
    getRequest c5Resp = .error (.api ⟨"Not Found", 404⟩) ∧
    postFormDataResponse c5Resp = .error (.api ⟨"json error body", 404⟩) ∧
    c5Resp.jsonErrorField = some "missing" ∧
    ("Not Found" : String) ≠ "missing" ∧
    ("json error body" : String) ≠ "missing" := by
  refine ⟨by decide, by decide, rfl, by decide, by decide⟩

/-- C5, amended: on a non-success status the claimed message priority
holds only for the shared JSON-POST handler (`handleResponse`, hence
`postJson`); the GET entry point always uses the protocol status text,
and the form-data POST entry point uses the raw text body with a fixed
`"Upload failed"` fallback. -/
theorem C5_theorem {T : Type} (now : Nat) (r : TResponse T)
    (h : r.ok = false) :
    handleResponse now r = .error (.api ⟨claimedPostMessage r, r.status⟩) ∧
    getRequest r = .error (.api ⟨r.statusText, r.status⟩) ∧
    postFormDataResponse r =
      .error (.api ⟨if r.bodyText = "" then "Upload failed" else r.bodyText,
        r.status⟩) := by
  refine ⟨?_, ?_, ?_⟩
  · unfold handleResponse
    rw [h, if_pos rfl, failMessage_eq_claimed]
  · unfold getRequest
    rw [h, if_pos rfl]
  · unfold postFormDataResponse
    rw [h, if_pos rfl]

/-- C5, witness: the amended theorem applied to a concrete plain-text
500 response. -/
theorem C5_witness :
    c5WResp.ok = false ∧
    (handleResponse 0 c5WResp =
        .error (.api ⟨claimedPostMessage c5WResp, c5WResp.status⟩) ∧
      getRequest c5WResp =
        .error (.api ⟨c5WResp.statusText, c5WResp.status⟩) ∧
      postFormDataResponse c5WResp =
        .error (.api ⟨if c5WResp.bodyText = "" then "Upload failed"
          else c5WResp.bodyText, c5WResp.status⟩)) :=
  ⟨rfl, C5_theorem 0 c5WResp rfl⟩

/-- C6: the filename resolver is claimed never to throw, yet on the
header `attachment; filename*=UTF-8''%ZZ` the unguarded
`decodeURIComponent` call raises `URIError` (modelled `Except.error`),
escaping the resolver; absent or tokenless headers do return
synthesized names as claimed. -/
theorem C6_theorem :
    parseFileName 0 (some c6Header) = .error () ∧
    parseFileName 5 none = .ok (fallbackName 5) ∧
    parseFileName 7 (some "attachment") = .ok (fallbackName 7) := by
  refine ⟨by decide, by decide, by decide⟩

/-- C7: a successful upload sets exactly its own type's readiness flag
(leaving the others and the document count unchanged), a failed upload
changes no readiness state at all, and over any sequence of upload
settlements a readiness flag never transitions back from true to
false. -/
theorem C7_theorem :
    (∀ (ty : UploadType) (m : String) (ps : PanelState) (st : DataStatus),
      getReady ty (handleUpload ty (.ok m) ps st).2 = true ∧
      (∀ t2, t2 ≠ ty →
        getReady t2 (handleUpload ty (.ok m) ps st).2 = getReady t2 st) ∧
      (handleUpload ty (.ok m) ps st).2.documentCount = st.documentCount) ∧
    (∀ (ty : UploadType) (e : String) (ps : PanelState) (st : DataStatus),
      (handleUpload ty (.error e) ps st).2 = st) ∧
    (∀ (evs : List (UploadType × Except String String)) (st : DataStatus)
      (t : UploadType), getReady t st = true →
      getReady t (evs.foldl uploadStatusStep st) = true) := by
  refine ⟨?_, ?_, ?_⟩
  · intro ty m ps st
    refine ⟨?_, ?_, ?_⟩
    · cases ty <;> simp [handleUpload, setReady, getReady]
    · intro t2 ht2
      cases ty <;> cases t2 <;>
        first
          | exact absurd rfl ht2
          | simp [handleUpload, setReady, getReady]
    · cases ty <;> simp [handleUpload, setReady]
  · intro ty e ps st
    rfl
  · intro evs
    induction evs with
    | nil => intro st t h; simpa using h
    | cons ev rest ih =>
      intro st t h
      simpa [List.foldl_cons] using ih (uploadStatusStep st ev) t
        (uploadStatusStep_mono st ev t h)

/-- C7, witness: the theorem applied to concrete uploads — a course
success sets only the course flag, a later course failure changes
nothing, and the course flag survives a later mixed settlement
sequence. -/
theorem C7_witness :
    getReady .courses
        (handleUpload .courses (.ok "Loaded 12 courses.") c7Panel c7Start).2 =
      true ∧
    (UploadType.holidays ≠ UploadType.courses) ∧
    getReady .holidays
        (handleUpload .courses (.ok "Loaded 12 courses.") c7Panel c7Start).2 =
      getReady .holidays c7Start ∧
    (handleUpload .courses (.error "bad csv") c7Panel c7AfterCourses).2 =
      c7AfterCourses ∧
    getReady .courses c7AfterCourses = true ∧
    getReady .courses
        ([(.holidays, .error "bad csv"), (.guidelines, .ok "Guidelines set")]
          |>.foldl uploadStatusStep c7AfterCourses) = true :=
  ⟨(C7_theorem.1 .courses "Loaded 12 courses." c7Panel c7Start).1,
    by decide,
    (C7_theorem.1 .courses "Loaded 12 courses." c7Panel c7Start).2.1
      .holidays (by decide),
    C7_theorem.2.1 .courses "bad csv" c7Panel c7AfterCourses,
    by decide,
    C7_theorem.2.2
      [(.holidays, .error "bad csv"), (.guidelines, .ok "Guidelines set")]
      c7AfterCourses .courses (by decide)⟩

/-- C8, counterexample: when triggering the save (`link.click()`)
throws, `downloadFromApi` exits with the object URL allocated but never
revoked (and the anchor still attached), contradicting the
release-on-every-exit-path claim. -/
theorem C8_counterexample :
    runDownload true
        (ApiResult.file (T := Nat) ⟨[1], "application/pdf"⟩ "plan.pdf"
          "application/pdf") =
      (⟨true, false, true⟩, true) ∧
    (DlState.mk true false true).revoked = false := ⟨by decide, rfl⟩

/-- C8, amended: the object URL is revoked after initiating the save on
the normal exit path, but the function body has no `try`/`finally`, so
on the path where the save itself throws the revocation is skipped; the
JSON variant allocates nothing. -/
theorem C8_theorem {T : Type} (b : Blob) (fn mt : String) (d : T) (ct : Bool) :
    (runDownload false (ApiResult.file (T := T) b fn mt)).1.revoked = true ∧
    (runDownload false (ApiResult.file (T := T) b fn mt)).2 = false ∧
    (runDownload true (ApiResult.file (T := T) b fn mt)).1.revoked = false ∧
    (runDownload true (ApiResult.file (T := T) b fn mt)).2 = true ∧
    runDownload ct (ApiResult.json d) = (dlInit, false) := by
  refine ⟨rfl, rfl, rfl, rfl, ?_⟩
  cases ct <;> rfl

/-- C9: after a successful IP-based lookup, a browser-side failure —
whether the geolocation permission callback or a failed
coordinate-based lookup — only sets the `geolocationDenied` flag; the
stored suggestion and its `ip` provenance are untouched. Instantiated
by the Maharashtra scenario in the final conjunct. -/
theorem C9_theorem :
    (∀ (s : AppLocState) (data : LocationData) (c : Coords)
      (e : GatewayError),
      (fetchLocation none (.ok (.json data)) s).location = some data ∧
      (fetchLocation none (.ok (.json data)) s).locationSource = .ip ∧
      geoFailure true (fetchLocation none (.ok (.json data)) s) =
        { fetchLocation none (.ok (.json data)) s with
            geolocationDenied := true } ∧
      fetchLocation (some c) (.error e)
          (fetchLocation none (.ok (.json data)) s) =
        { fetchLocation none (.ok (.json data)) s with
            geolocationDenied := true }) ∧
    ((geoFailure true
          (fetchLocation none (.ok (.json mahData)) locStart)).location =
        some mahData ∧
      (geoFailure true
            (fetchLocation none (.ok (.json mahData)) locStart)).locationSource =
        .ip ∧
      (geoFailure true
            (fetchLocation none
              (.ok (.json mahData)) locStart)).geolocationDenied = true ∧
      mahData.location.regionState = some "Maharashtra") := by
  refine ⟨fun s data c e => ⟨rfl, rfl, rfl, rfl⟩,
    by decide, by decide, by decide, rfl⟩

/-- C10: for every header whose captured filename token does not start
with the `UTF-8''` marker, the resolver returns the trimmed token with
every double and single quote removed wherever it occurs; consequently
`attachment; filename=""` yields the empty string (not a synthesized
fallback), and an interior quote is removed too. -/
theorem C10_theorem :
    (∀ (now : Nat) (cd : String) (cap : List Char),
      findFilenameMatch cd.toList = some cap →
      headMatches utf8Marker (jsTrim (String.mk cap)).toList = false →
      parseFileName now (some cd) =
        .ok (String.mk (stripQuotes (jsTrim (String.mk cap)).toList))) ∧
    parseFileName 0 (some c10Header) = .ok "" ∧
    parseFileName 0 (some c10InnerHeader) = .ok "ab.pdf" := by
  refine ⟨?_, by decide, by decide⟩
  intro now cd cap hmatch hmarker
  simp only [parseFileName, hmatch, hmarker, Bool.false_eq_true, if_false]

/-- C10, witness: the universal part applied to the all-quotes header
`attachment; filename=""`. -/
theorem C10_witness :
    findFilenameMatch c10Header.toList = some [dquote, dquote] ∧
    headMatches utf8Marker (jsTrim (String.mk [dquote, dquote])).toList =
      false ∧
    parseFileName 0 (some c10Header) =
      .ok (String.mk (stripQuotes (jsTrim (String.mk [dquote, dquote])).toList)) :=
  ⟨by decide, by decide,
    C10_theorem.1 0 c10Header [dquote, dquote] (by decide) (by decide)⟩
